import Mathlib

/-!
# FOTA / telemetry agent (`src/main.c`): boot bookkeeping and the two service loops

A shallow embedding of `fota_update_acid`, `fota_init`, `fota_service`,
`get_temp_sensor_data` and `bluemix_service`, in the build configuration where
both `CONFIG_BLUETOOTH` and `CONFIG_FOTA_DM_BACKEND_HAWKBIT` are defined.

Calls into collaborators (flash helpers, backends, drivers) are modelled by the
value they return on that call, given as input, and every call that matters for
ordering is recorded in an event log.
-/

namespace FotaHawkbit

/-! ## Constants -/

/-- The constant `#define MAX_SERVER_FAIL 5`. -/
def MAX_SERVER_FAIL : Nat := 5

/-- The errno value `ENODEV`. -/
def ENODEV : Int := 19

/-- The sentinel the source compares `acid->update` with (`acid->update != -1`). -/
def ACID_NONE : Int := -1

/-- Width of the `uint32_t` failure counters. -/
def UINT32_MOD : Nat := 2 ^ 32

/-! ## Boot state store -/

/-- Modelled from the spec: the `status` enum of the BootRecord (section 3);
`boot_utils.h`, which defines `BOOT_STATUS_ONGOING`, is not among the sources. -/
inductive BootStatus where
  | Normal
  | Ongoing
  deriving DecidableEq, Repr

/-- Modelled from the spec: `struct boot_acid` of the absent `boot_utils.h`, with
the two generation fields the source reads (`acid.current`, `acid.update`). -/
structure boot_acid where
  current : Int
  update : Int
  deriving DecidableEq, Repr

/-- The flash-resident state reached through the boot helpers: the BootRecord
(generations and status) and whether the alternate bank (`FLASH_BANK1_OFFSET`)
reads as erased. -/
structure Flash where
  acid : boot_acid
  status : BootStatus
  bank1_erased : Bool
  deriving DecidableEq, Repr

/-- What the fallible collaborators of `fota_init` return when they are called. -/
structure BootEnv where
  /-- whether `device_get_binding(FLASH_DRIVER_NAME)` is non-NULL -/
  flash_found : Bool
  /-- return value of `boot_erase_flash_bank` -/
  erase_ret : Int
  /-- return value of `boot_acid_update` -/
  acid_update_ret : Int
  deriving DecidableEq, Repr

/-- The flash-writing calls of startup validation, in the order they are made. -/
inductive BootEvent where
  | boot_status_update
  | boot_erase_flash_bank (ret : Int)
  | boot_acid_update (value : Int) (ret : Int)
  deriving DecidableEq, Repr

/-- Modelled from the spec: `boot_acid_read` of the absent `boot_utils.c`, the
`read()` of the Boot State Store: it returns the stored generations. -/
def boot_acid_read (fl : Flash) : boot_acid := fl.acid

/-- Modelled from the spec: `boot_status_read` of the absent `boot_utils.c`. -/
def boot_status_read (fl : Flash) : BootStatus := fl.status

/-- Modelled from the spec: `boot_status_update` of the absent `boot_utils.c`:
flip `status` to `Normal`, persist. -/
def boot_status_update (fl : Flash) : Flash := { fl with status := BootStatus.Normal }

/-- Modelled from the spec: `boot_erase_flash_bank` of the absent `boot_utils.c`,
`erase_alternate_bank() -> Result`: on success (return 0) the bank reads as
erased; on failure it cannot be taken as erased. -/
def boot_erase_flash_bank (env : BootEnv) (fl : Flash) : Int × Flash :=
  if env.erase_ret = 0 then (0, { fl with bank1_erased := true })
  else (env.erase_ret, { fl with bank1_erased := false })

/-- Modelled from the spec: `boot_acid_update(BOOT_ACID_CURRENT, value)` of the
absent `boot_utils.c`: atomically update `current_generation := pending_generation`,
clear `pending_generation`, and persist; a commit that fails leaves the pending
generation pending (the record is not changed). -/
def boot_acid_update (env : BootEnv) (fl : Flash) (value : Int) : Int × Flash :=
  if env.acid_update_ret = 0 then
    (0, { fl with acid := { current := value, update := ACID_NONE } })
  else (env.acid_update_ret, fl)

/-- Result of `fota_update_acid`: return value, the caller's `acid` struct, flash, log. -/
structure AcidResult where
  ret : Int
  acid : boot_acid
  flash : Flash
  log : List BootEvent
  deriving DecidableEq, Repr

/-- The function `fota_update_acid` (main.c 89-103). -/
def fota_update_acid (env : BootEnv) (fl : Flash) (acid : boot_acid) : AcidResult :=
  if acid.update ≠ ACID_NONE then
    let r := boot_acid_update env fl acid.update
    if r.1 = 0 then
      { ret := r.1, acid := boot_acid_read r.2, flash := r.2,
        log := [BootEvent.boot_acid_update acid.update r.1] }
    else
      { ret := r.1, acid := acid, flash := r.2,
        log := [BootEvent.boot_acid_update acid.update r.1] }
  else
    { ret := 0, acid := acid, flash := fl, log := [] }

/-- Result of `fota_init`: return value, flash afterwards, flash-writing calls made. -/
structure InitResult where
  ret : Int
  flash : Flash
  log : List BootEvent
  deriving DecidableEq, Repr

/-- The function `fota_init` (main.c 105-147). -/
def fota_init (env : BootEnv) (fl : Flash) : InitResult :=
  if env.flash_found = false then
    { ret := -ENODEV, flash := fl, log := [] }
  else
    let acid := boot_acid_read fl
    let boot_status := boot_status_read fl
    if boot_status = BootStatus.Ongoing then
      let fl1 := boot_status_update fl
      let e := boot_erase_flash_bank env fl1
      if e.1 ≠ 0 then
        { ret := e.1, flash := e.2,
          log := [BootEvent.boot_status_update, BootEvent.boot_erase_flash_bank e.1] }
      else
        let u := fota_update_acid env e.2 acid
        if u.ret ≠ 0 then
          { ret := u.ret, flash := u.flash,
            log := [BootEvent.boot_status_update, BootEvent.boot_erase_flash_bank e.1] ++ u.log }
        else
          { ret := 0, flash := u.flash,
            log := [BootEvent.boot_status_update, BootEvent.boot_erase_flash_bank e.1] ++ u.log }
    else
      { ret := 0, flash := fl, log := [] }

/-! ## Events of the service loops -/

/-- The payload handed to `bluemix_pub_status_json`: which of the two format
strings is used, with its integer arguments. -/
inductive Payload where
  /-- the one-field format string, with the argument for mcutemp -/
  | mcu_only (mcutemp : Int)
  /-- the two-field format string, with the arguments for mcutemp and temperature -/
  | mcu_and_offchip (mcutemp : Int) (temperature : Int)
  deriving DecidableEq, Repr

/-- The named fields a payload carries, in order. -/
def Payload.fields : Payload → List (String × Int)
  | Payload.mcu_only m => [("mcutemp", m)]
  | Payload.mcu_and_offchip m t => [("mcutemp", m), ("temperature", t)]

/-- The text produced by the format string (`%d` printed in decimal). -/
def Payload.render : Payload → String
  | Payload.mcu_only m => "\x7b\"mcutemp\":" ++ toString m ++ "\x7d"
  | Payload.mcu_and_offchip m t =>
      "\x7b\"mcutemp\":" ++ toString m ++ ",\"temperature\":" ++ toString t ++ ",\x7d"

/-- Calls made by the service loops, in program order. -/
inductive Ev where
  | k_sleep
  | tcp_interface_lock
  | tcp_interface_unlock
  | hawkbit_ddi_poll (ret : Int)
  | bluemix_init (ret : Int)
  | bluemix_pub_status_json (p : Payload) (ret : Int)
  | bluemix_fini (ret : Int)
  | stack_analyze
  | sys_reboot
  deriving DecidableEq, Repr

/-- Backend (network) operations. -/
def Ev.is_backend_op : Ev → Bool
  | Ev.hawkbit_ddi_poll _ => true
  | Ev.bluemix_init _ => true
  | Ev.bluemix_pub_status_json _ _ => true
  | Ev.bluemix_fini _ => true
  | _ => false

/-- Number of `tcp_interface_lock` calls in a log. -/
def lock_count (evs : List Ev) : Nat := evs.count Ev.tcp_interface_lock

/-- Number of `tcp_interface_unlock` calls in a log. -/
def unlock_count (evs : List Ev) : Nat := evs.count Ev.tcp_interface_unlock

/-- Lock discipline of a log, scanned from a state where the lock is held or not:
a lock is taken only when free, released only when held, every backend operation
happens while it is held, no sleep happens while it is held, and it is free at
the end. -/
def lock_discipline : Bool → List Ev → Bool
  | held, [] => !held
  | held, Ev.k_sleep :: rest => !held && lock_discipline false rest
  | held, Ev.tcp_interface_lock :: rest => !held && lock_discipline true rest
  | held, Ev.tcp_interface_unlock :: rest => held && lock_discipline false rest
  | held, Ev.hawkbit_ddi_poll _ :: rest => held && lock_discipline held rest
  | held, Ev.bluemix_init _ :: rest => held && lock_discipline held rest
  | held, Ev.bluemix_pub_status_json _ _ :: rest => held && lock_discipline held rest
  | held, Ev.bluemix_fini _ :: rest => held && lock_discipline held rest
  | held, Ev.stack_analyze :: rest => lock_discipline held rest
  | held, Ev.sys_reboot :: rest => lock_discipline held rest

/-! ## Update service loop -/

/-- What one iteration of the `fota_service` loop observes. -/
structure FotaInput where
  /-- the flag `bt_connection_state` when the thread wakes up -/
  bt_connection_state : Bool
  /-- return value of `hawkbit_ddi_poll`, if it is called -/
  poll_ret : Int
  deriving DecidableEq, Repr

/-- State of the `fota_service` thread: its local counter, and whether
`sys_reboot` has been called (the thread does not go on after that). -/
structure FotaState where
  hawkbit_failures : Nat
  rebooted : Bool
  deriving DecidableEq, Repr

/-- One iteration of the `do ... while (1)` body of `fota_service` (main.c 159-191). -/
def fota_cycle (s : FotaState) (i : FotaInput) : FotaState × List Ev :=
  if i.bt_connection_state = false then
    (s, [Ev.k_sleep])
  else if i.poll_ret < 0 then
    let f := (s.hawkbit_failures + 1) % UINT32_MOD
    if f = MAX_SERVER_FAIL then
      ({ hawkbit_failures := f, rebooted := true },
        [Ev.k_sleep, Ev.tcp_interface_lock, Ev.hawkbit_ddi_poll i.poll_ret, Ev.sys_reboot])
    else
      ({ hawkbit_failures := f, rebooted := s.rebooted },
        [Ev.k_sleep, Ev.tcp_interface_lock, Ev.hawkbit_ddi_poll i.poll_ret,
          Ev.tcp_interface_unlock, Ev.stack_analyze])
  else
    ({ hawkbit_failures := 0, rebooted := s.rebooted },
      [Ev.k_sleep, Ev.tcp_interface_lock, Ev.hawkbit_ddi_poll i.poll_ret,
        Ev.tcp_interface_unlock, Ev.stack_analyze])

/-- The loop of `fota_service` run over the observations of successive
iterations; it stops at `sys_reboot`. -/
def fota_service (s : FotaState) : List FotaInput → FotaState × List Ev
  | [] => (s, [])
  | i :: rest =>
    if (fota_cycle s i).1.rebooted = true then fota_cycle s i
    else ((fota_service (fota_cycle s i).1 rest).1,
          (fota_cycle s i).2 ++ (fota_service (fota_cycle s i).1 rest).2)

/-- The type `struct sensor_value`: whole part and fractional part. -/
structure sensor_value where
  val1 : Int
  val2 : Int
  deriving DecidableEq, Repr

/-- What the driver of a bound sensor device does during one read. -/
structure SensorDev where
  /-- return value of `sensor_sample_fetch` -/
  fetch_ret : Int
  /-- return value of `sensor_channel_get` -/
  get_ret : Int
  /-- what `sensor_channel_get` stores through `temp_value`, if it stores anything -/
  get_val : Option sensor_value
  deriving DecidableEq, Repr

/-- The function `get_temp_sensor_data` (main.c 211-233): `temp_dev = none` is the
NULL device; the second component is `*temp_value` afterwards. -/
def get_temp_sensor_data (temp_dev : Option SensorDev) (temp_value : sensor_value)
    (use_defaults_on_null : Bool) : Int × sensor_value :=
  match temp_dev with
  | none =>
    if use_defaults_on_null then (0, { val1 := 23, val2 := 0 })
    else (-ENODEV, temp_value)
  | some d =>
    if d.fetch_ret ≠ 0 then (d.fetch_ret, temp_value)
    else (d.get_ret, d.get_val.getD temp_value)

/-- What one iteration of the `bluemix_service` loop observes. -/
structure BluemixInput where
  /-- the flag `bt_connection_state` when the thread wakes up -/
  bt_connection_state : Bool
  /-- return value of `bluemix_init`, if it is called -/
  init_ret : Int
  /-- the global `mcu_temp_sensor_dev` and what its driver does -/
  mcu_temp_sensor_dev : Option SensorDev
  /-- the global `offchip_temp_sensor_dev` and what its driver does -/
  offchip_temp_sensor_dev : Option SensorDev
  /-- return value of `bluemix_pub_status_json` -/
  pub_ret : Int
  /-- return value of `bluemix_fini`, if it is called -/
  fini_ret : Int
  deriving DecidableEq, Repr

/-- State of the `bluemix_service` thread: the static `bluemix_inited`, the local
counter, and the two function-scope `sensor_value` locals. -/
structure BluemixState where
  bluemix_inited : Int
  bluemix_failures : Nat
  mcu_temp_value : sensor_value
  offchip_temp_value : sensor_value
  deriving DecidableEq, Repr

/-- State at thread start: `bluemix_inited = 0`, `bluemix_failures = 0`; the two
`sensor_value` locals are not initialised by the source. -/
def bluemix_start (mcu0 off0 : sensor_value) : BluemixState :=
  { bluemix_inited := 0, bluemix_failures := 0, mcu_temp_value := mcu0,
    offchip_temp_value := off0 }

/-- The payload chosen at main.c 302-316 from the return value of the off-chip read. -/
def bluemix_payload (offchip_ret : Int) (mcu off : sensor_value) : Payload :=
  if offchip_ret ≠ 0 then Payload.mcu_only mcu.val1
  else Payload.mcu_and_offchip mcu.val1 off.val1

/-- Lines 270-334 of `bluemix_service`: sample both sensors, publish, count, tear
down on failure, unlock. The state passed in is the one after the init step. -/
def bluemix_sample_publish (s : BluemixState) (i : BluemixInput) : BluemixState × List Ev :=
  let m := get_temp_sensor_data i.mcu_temp_sensor_dev s.mcu_temp_value true
  let o := get_temp_sensor_data i.offchip_temp_sensor_dev s.offchip_temp_value false
  let p := bluemix_payload o.1 m.2 o.2
  if i.pub_ret ≠ 0 then
    ({ s with bluemix_failures := (s.bluemix_failures + 1) % UINT32_MOD,
              mcu_temp_value := m.2, offchip_temp_value := o.2 },
      [Ev.bluemix_pub_status_json p i.pub_ret, Ev.bluemix_fini i.fini_ret,
        Ev.tcp_interface_unlock, Ev.stack_analyze])
  else
    ({ s with bluemix_failures := 0, mcu_temp_value := m.2, offchip_temp_value := o.2 },
      [Ev.bluemix_pub_status_json p i.pub_ret, Ev.tcp_interface_unlock, Ev.stack_analyze])

/-- One iteration of the `while` body of `bluemix_service` (main.c 245-334). -/
def bluemix_cycle (s : BluemixState) (i : BluemixInput) : BluemixState × List Ev :=
  if i.bt_connection_state = false then
    (s, [Ev.k_sleep])
  else if s.bluemix_inited = 0 then
    if i.init_ret = 0 then
      let s1 := { s with bluemix_failures := 0, bluemix_inited := 1 }
      ((bluemix_sample_publish s1 i).1,
        [Ev.k_sleep, Ev.tcp_interface_lock, Ev.bluemix_init i.init_ret]
          ++ (bluemix_sample_publish s1 i).2)
    else
      ({ s with bluemix_failures := (s.bluemix_failures + 1) % UINT32_MOD },
        [Ev.k_sleep, Ev.tcp_interface_lock, Ev.bluemix_init i.init_ret,
          Ev.tcp_interface_unlock])
  else
    ((bluemix_sample_publish s i).1,
      [Ev.k_sleep, Ev.tcp_interface_lock] ++ (bluemix_sample_publish s i).2)

/-- The function `bluemix_service` (main.c 235-339) run over the observations of
successive iterations: the loop runs while `bluemix_failures < MAX_SERVER_FAIL`
and the code after the loop calls `sys_reboot`. -/
def bluemix_service (s : BluemixState) : List BluemixInput → BluemixState × List Ev
  | [] => if s.bluemix_failures < MAX_SERVER_FAIL then (s, []) else (s, [Ev.sys_reboot])
  | i :: rest =>
    if s.bluemix_failures < MAX_SERVER_FAIL then
      ((bluemix_service (bluemix_cycle s i).1 rest).1,
        (bluemix_cycle s i).2 ++ (bluemix_service (bluemix_cycle s i).1 rest).2)
    else (s, [Ev.sys_reboot])

/-- Whether a log contains a `bluemix_init` call. -/
def calls_bluemix_init (evs : List Ev) : Bool :=
  evs.any (fun e => match e with
    | Ev.bluemix_init _ => true
    | _ => false)

/-- The payloads published in a log, in order. -/
def published (evs : List Ev) : List Payload :=
  evs.filterMap (fun e => match e with
    | Ev.bluemix_pub_status_json p _ => some p
    | _ => none)

/-! ## Startup validation: theorems -/

/-- When the flash driver is missing `fota_init` returns `-ENODEV` and writes nothing. -/
theorem fota_init_no_flash (env : BootEnv) (fl : Flash) (hf : env.flash_found = false) :
    fota_init env fl = { ret := -ENODEV, flash := fl, log := [] } := by
  simp [fota_init, hf]

/-- With status Normal `fota_init` returns 0 and writes nothing. -/
theorem fota_init_normal (env : BootEnv) (fl : Flash) (hf : env.flash_found = true)
    (hs : fl.status = BootStatus.Normal) :
    fota_init env fl = { ret := 0, flash := fl, log := [] } := by
  simp [fota_init, hf, hs, boot_status_read]

/-- With status Ongoing and a failing erase `fota_init` returns the erase error,
after the status was already flipped. -/
theorem fota_init_ongoing_erase_fails (env : BootEnv) (fl : Flash)
    (hf : env.flash_found = true) (hs : fl.status = BootStatus.Ongoing)
    (he : env.erase_ret ≠ 0) :
    fota_init env fl =
      { ret := env.erase_ret,
        flash := { acid := fl.acid, status := BootStatus.Normal, bank1_erased := false },
        log := [BootEvent.boot_status_update,
                BootEvent.boot_erase_flash_bank env.erase_ret] } := by
  simp [fota_init, hf, hs, he, boot_status_read, boot_erase_flash_bank, boot_status_update]

/-- With status Ongoing, a successful erase and nothing pending, `fota_init`
returns 0 with the record confirmed and the bank erased. -/
theorem fota_init_ongoing_nothing_pending (env : BootEnv) (fl : Flash)
    (hf : env.flash_found = true) (hs : fl.status = BootStatus.Ongoing)
    (he : env.erase_ret = 0) (hp : fl.acid.update = ACID_NONE) :
    fota_init env fl =
      { ret := 0,
        flash := { acid := fl.acid, status := BootStatus.Normal, bank1_erased := true },
        log := [BootEvent.boot_status_update, BootEvent.boot_erase_flash_bank 0] } := by
  simp [fota_init, hf, hs, he, hp, boot_status_read, boot_erase_flash_bank,
    boot_status_update, fota_update_acid, boot_acid_read]

/-- With status Ongoing, a successful erase and a pending generation whose commit
succeeds, `fota_init` returns 0 with the pending generation made current. -/
theorem fota_init_ongoing_commit_ok (env : BootEnv) (fl : Flash)
    (hf : env.flash_found = true) (hs : fl.status = BootStatus.Ongoing)
    (he : env.erase_ret = 0) (hp : fl.acid.update ≠ ACID_NONE)
    (hc : env.acid_update_ret = 0) :
    fota_init env fl =
      { ret := 0,
        flash := { acid := { current := fl.acid.update, update := ACID_NONE },
                   status := BootStatus.Normal, bank1_erased := true },
        log := [BootEvent.boot_status_update, BootEvent.boot_erase_flash_bank 0,
                BootEvent.boot_acid_update fl.acid.update 0] } := by
  simp [fota_init, hf, hs, he, hp, hc, boot_status_read, boot_erase_flash_bank,
    boot_status_update, fota_update_acid, boot_acid_read, boot_acid_update]

/-- With status Ongoing, a successful erase and a pending generation whose commit
fails, `fota_init` returns the commit error and the generations are untouched. -/
theorem fota_init_ongoing_commit_fails (env : BootEnv) (fl : Flash)
    (hf : env.flash_found = true) (hs : fl.status = BootStatus.Ongoing)
    (he : env.erase_ret = 0) (hp : fl.acid.update ≠ ACID_NONE)
    (hc : env.acid_update_ret ≠ 0) :
    fota_init env fl =
      { ret := env.acid_update_ret,
        flash := { acid := fl.acid, status := BootStatus.Normal, bank1_erased := true },
        log := [BootEvent.boot_status_update, BootEvent.boot_erase_flash_bank 0,
                BootEvent.boot_acid_update fl.acid.update env.acid_update_ret] } := by
  simp [fota_init, hf, hs, he, hp, hc, boot_status_read, boot_erase_flash_bank,
    boot_status_update, fota_update_acid, boot_acid_read, boot_acid_update]

/-- If the log of `fota_init` holds an erase call, the flash driver was found and
the status read at startup was Ongoing. -/
theorem fota_init_erase_called (env : BootEnv) (fl : Flash) (r : Int)
    (h : BootEvent.boot_erase_flash_bank r ∈ (fota_init env fl).log) :
    env.flash_found = true ∧ fl.status = BootStatus.Ongoing ∧ env.erase_ret = r := by
  cases hf : env.flash_found with
  | false => rw [fota_init_no_flash env fl hf] at h; simp at h
  | true =>
    cases hs : fl.status with
    | Normal => rw [fota_init_normal env fl hf hs] at h; simp at h
    | Ongoing =>
      refine ⟨rfl, rfl, ?_⟩
      by_cases he : env.erase_ret = 0
      · by_cases hp : fl.acid.update = ACID_NONE
        · rw [fota_init_ongoing_nothing_pending env fl hf hs he hp] at h
          simp at h
          omega
        · by_cases hc : env.acid_update_ret = 0
          · rw [fota_init_ongoing_commit_ok env fl hf hs he hp hc] at h
            simp at h
            omega
          · rw [fota_init_ongoing_commit_fails env fl hf hs he hp hc] at h
            simp at h
            omega
      · rw [fota_init_ongoing_erase_fails env fl hf hs he] at h
        simp at h
        omega

/-- Whenever the flash driver is found and the status is Ongoing, the status is
Normal afterwards and the log starts with the status flip followed by the erase. -/
theorem fota_init_ongoing_shape (env : BootEnv) (fl : Flash)
    (hf : env.flash_found = true) (hs : fl.status = BootStatus.Ongoing) :
    (fota_init env fl).flash.status = BootStatus.Normal ∧
    (fota_init env fl).flash.bank1_erased = decide (env.erase_ret = 0) ∧
    ∃ rest, (fota_init env fl).log =
      BootEvent.boot_status_update :: BootEvent.boot_erase_flash_bank env.erase_ret :: rest := by
  by_cases he : env.erase_ret = 0
  · by_cases hp : fl.acid.update = ACID_NONE
    · rw [fota_init_ongoing_nothing_pending env fl hf hs he hp]
      simp [he]
    · by_cases hc : env.acid_update_ret = 0
      · rw [fota_init_ongoing_commit_ok env fl hf hs he hp hc]
        simp [he]
      · rw [fota_init_ongoing_commit_fails env fl hf hs he hp hc]
        simp [he]
  · rw [fota_init_ongoing_erase_fails env fl hf hs he]
    simp [he]

/-- C3, as stated, fails: with status Normal, a pending generation 2, the flash
driver found and erase and commit succeeding, `fota_init` returns 0 and leaves
current = 1 and pending = 2; the pending generation is not committed. -/
theorem C3_counterexample_normal_not_committed :
    (2 : Int) ≠ ACID_NONE ∧
    (fota_init { flash_found := true, erase_ret := 0, acid_update_ret := 0 }
      { acid := { current := 1, update := 2 }, status := BootStatus.Normal,
        bank1_erased := false }) =
      { ret := 0,
        flash := { acid := { current := 1, update := 2 }, status := BootStatus.Normal,
                   bank1_erased := false },
        log := [] } ∧
    ¬ ((fota_init { flash_found := true, erase_ret := 0, acid_update_ret := 0 }
        { acid := { current := 1, update := 2 }, status := BootStatus.Normal,
          bank1_erased := false }).flash.acid.current = 2 ∧
       (fota_init { flash_found := true, erase_ret := 0, acid_update_ret := 0 }
        { acid := { current := 1, update := 2 }, status := BootStatus.Normal,
          bank1_erased := false }).flash.acid.update = ACID_NONE) := by
  decide

/-- C3 (amended): the pending generation is committed only under status Ongoing.
For every boot record with a pending generation (not -1), if the flash driver is
found and erase and commit succeed: with status Ongoing the current generation
afterwards equals the former pending generation and the pending generation is
cleared; with status Normal `fota_init` returns 0 without any flash write and the
record is unchanged. -/
theorem C3_fota_init_commits_pending_iff_ongoing (env : BootEnv) (fl : Flash)
    (hp : fl.acid.update ≠ ACID_NONE) (hf : env.flash_found = true)
    (he : env.erase_ret = 0) (hc : env.acid_update_ret = 0) :
    (fl.status = BootStatus.Ongoing →
      (fota_init env fl).flash.acid.current = fl.acid.update ∧
      (fota_init env fl).flash.acid.update = ACID_NONE ∧
      (fota_init env fl).ret = 0) ∧
    (fl.status = BootStatus.Normal →
      (fota_init env fl).flash = fl ∧ (fota_init env fl).log = [] ∧
      (fota_init env fl).ret = 0) := by
  constructor
  · intro hs
    rw [fota_init_ongoing_commit_ok env fl hf hs he hp hc]
    simp
  · intro hs
    rw [fota_init_normal env fl hf hs]
    simp

/-- Witness for C3 (amended): a record with status Ongoing, current 1, pending 2. -/
theorem C3_fota_init_commits_pending_iff_ongoing_witness :
    (fota_init { flash_found := true, erase_ret := 0, acid_update_ret := 0 }
      { acid := { current := 1, update := 2 }, status := BootStatus.Ongoing,
        bank1_erased := false }).flash.acid.current = 2 ∧
    (fota_init { flash_found := true, erase_ret := 0, acid_update_ret := 0 }
      { acid := { current := 1, update := 2 }, status := BootStatus.Ongoing,
        bank1_erased := false }).flash.acid.update = ACID_NONE ∧
    (fota_init { flash_found := true, erase_ret := 0, acid_update_ret := 0 }
      { acid := { current := 1, update := 2 }, status := BootStatus.Ongoing,
        bank1_erased := false }).ret = 0 :=
  (C3_fota_init_commits_pending_iff_ongoing
    { flash_found := true, erase_ret := 0, acid_update_ret := 0 }
    { acid := { current := 1, update := 2 }, status := BootStatus.Ongoing,
      bank1_erased := false }
    (by decide) rfl rfl rfl).1 rfl

/-- C4, as stated, fails: with status Ongoing, pending generation 2, a successful
erase and a commit returning -5, `fota_init` returns -5, not 0. -/
theorem C4_counterexample_commit_failure_fatal :
    (fota_init { flash_found := true, erase_ret := 0, acid_update_ret := -5 }
      { acid := { current := 1, update := 2 }, status := BootStatus.Ongoing,
        bank1_erased := false }).log =
      [BootEvent.boot_status_update, BootEvent.boot_erase_flash_bank 0,
        BootEvent.boot_acid_update 2 (-5)] ∧
    (fota_init { flash_found := true, erase_ret := 0, acid_update_ret := -5 }
      { acid := { current := 1, update := 2 }, status := BootStatus.Ongoing,
        bank1_erased := false }).ret = -5 ∧
    (fota_init { flash_found := true, erase_ret := 0, acid_update_ret := -5 }
      { acid := { current := 1, update := 2 }, status := BootStatus.Ongoing,
        bank1_erased := false }).ret ≠ 0 := by
  decide

/-- C4 (amended): a failure to commit the pending generation is fatal for
`fota_init`. For every boot record with status Ongoing and a pending generation,
if the flash driver is found, the erase succeeds and `boot_acid_update` returns
an error, `fota_init` returns that nonzero error, and the generations are left as
they were: the pending generation remains pending. -/
theorem C4_fota_init_commit_failure_returns_error (env : BootEnv) (fl : Flash)
    (hs : fl.status = BootStatus.Ongoing) (hp : fl.acid.update ≠ ACID_NONE)
    (hf : env.flash_found = true) (he : env.erase_ret = 0)
    (hc : env.acid_update_ret ≠ 0) :
    (fota_init env fl).ret = env.acid_update_ret ∧
    (fota_init env fl).ret ≠ 0 ∧
    (fota_init env fl).flash.acid = fl.acid ∧
    (fota_init env fl).flash.acid.update ≠ ACID_NONE ∧
    BootEvent.boot_acid_update fl.acid.update env.acid_update_ret ∈ (fota_init env fl).log := by
  rw [fota_init_ongoing_commit_fails env fl hf hs he hp hc]
  simp [hc, hp]

/-- Witness for C4 (amended): status Ongoing, pending 2, commit returning -5. -/
theorem C4_fota_init_commit_failure_returns_error_witness :
    (fota_init { flash_found := true, erase_ret := 0, acid_update_ret := -5 }
      { acid := { current := 1, update := 2 }, status := BootStatus.Ongoing,
        bank1_erased := false }).ret = -5 :=
  (C4_fota_init_commit_failure_returns_error
    { flash_found := true, erase_ret := 0, acid_update_ret := -5 }
    { acid := { current := 1, update := 2 }, status := BootStatus.Ongoing,
      bank1_erased := false }
    rfl (by decide) rfl rfl (by decide)).1

/-- C5: for every boot record whose status is Ongoing at startup, with the flash
driver found: the status is Normal after `fota_init`, the status flip is the
first flash write and the erase of the alternate bank is the call made right
after it, whatever the erase returns; and if the erase succeeds (returns 0) the
alternate bank is erased afterwards and the erase is logged with result 0. -/
theorem C5_fota_init_ongoing_confirms_then_erases (env : BootEnv) (fl : Flash)
    (hs : fl.status = BootStatus.Ongoing) (hf : env.flash_found = true) :
    (fota_init env fl).flash.status = BootStatus.Normal ∧
    (∃ rest, (fota_init env fl).log =
      BootEvent.boot_status_update :: BootEvent.boot_erase_flash_bank env.erase_ret :: rest) ∧
    (env.erase_ret = 0 →
      (fota_init env fl).flash.status = BootStatus.Normal ∧
      (fota_init env fl).flash.bank1_erased = true ∧
      ∃ rest, (fota_init env fl).log =
        BootEvent.boot_status_update :: BootEvent.boot_erase_flash_bank 0 :: rest) := by
  obtain ⟨h1, h2, h3⟩ := fota_init_ongoing_shape env fl hf hs
  refine ⟨h1, h3, ?_⟩
  intro he
  refine ⟨h1, ?_, ?_⟩
  · rw [h2]
    simp [he]
  · rw [← he]
    exact h3

/-- Witness for C5: status Ongoing with pending generation 2, the erase succeeds. -/
theorem C5_fota_init_ongoing_confirms_then_erases_witness :
    (fota_init { flash_found := true, erase_ret := 0, acid_update_ret := 0 }
      { acid := { current := 1, update := 2 }, status := BootStatus.Ongoing,
        bank1_erased := false }).flash.status = BootStatus.Normal ∧
    (fota_init { flash_found := true, erase_ret := 0, acid_update_ret := 0 }
      { acid := { current := 1, update := 2 }, status := BootStatus.Ongoing,
        bank1_erased := false }).flash.bank1_erased = true :=
  ⟨((C5_fota_init_ongoing_confirms_then_erases
      { flash_found := true, erase_ret := 0, acid_update_ret := 0 }
      { acid := { current := 1, update := 2 }, status := BootStatus.Ongoing,
        bank1_erased := false } rfl rfl).2.2 rfl).1,
   ((C5_fota_init_ongoing_confirms_then_erases
      { flash_found := true, erase_ret := 0, acid_update_ret := 0 }
      { acid := { current := 1, update := 2 }, status := BootStatus.Ongoing,
        bank1_erased := false } rfl rfl).2.2 rfl).2.1⟩

/-- A successful `fota_init` found the flash driver and leaves status Normal. -/
theorem fota_init_success_normal (env : BootEnv) (fl : Flash)
    (h : (fota_init env fl).ret = 0) :
    env.flash_found = true ∧ (fota_init env fl).flash.status = BootStatus.Normal := by
  cases hf : env.flash_found with
  | false =>
    rw [fota_init_no_flash env fl hf] at h
    simp [ENODEV] at h
  | true =>
    refine ⟨rfl, ?_⟩
    cases hs : fl.status with
    | Normal => rw [fota_init_normal env fl hf hs]; exact hs
    | Ongoing => exact (fota_init_ongoing_shape env fl hf hs).1

/-- C9: startup validation is idempotent. For every initial flash state for which
the first run of `fota_init` returns 0, a second run on the state the first run
left returns 0, makes no flash write and leaves the state (current generation,
pending generation, status, bank) exactly as the first run left it; this holds
for the same collaborator outcomes and for any others that find the flash driver. -/
theorem C9_fota_init_idempotent (env : BootEnv) (fl : Flash)
    (h : (fota_init env fl).ret = 0) :
    fota_init env (fota_init env fl).flash =
      { ret := 0, flash := (fota_init env fl).flash, log := [] } ∧
    (∀ env2 : BootEnv, env2.flash_found = true →
      fota_init env2 (fota_init env fl).flash =
        { ret := 0, flash := (fota_init env fl).flash, log := [] }) := by
  obtain ⟨hf, hn⟩ := fota_init_success_normal env fl h
  exact ⟨fota_init_normal env _ hf hn, fun env2 hf2 => fota_init_normal env2 _ hf2 hn⟩

/-- Witness for C9: a record with status Ongoing and pending generation 2. -/
theorem C9_fota_init_idempotent_witness :
    fota_init { flash_found := true, erase_ret := 0, acid_update_ret := 0 }
      (fota_init { flash_found := true, erase_ret := 0, acid_update_ret := 0 }
        { acid := { current := 1, update := 2 }, status := BootStatus.Ongoing,
          bank1_erased := false }).flash =
      { ret := 0,
        flash := (fota_init { flash_found := true, erase_ret := 0, acid_update_ret := 0 }
          { acid := { current := 1, update := 2 }, status := BootStatus.Ongoing,
            bank1_erased := false }).flash,
        log := [] } :=
  (C9_fota_init_idempotent
    { flash_found := true, erase_ret := 0, acid_update_ret := 0 }
    { acid := { current := 1, update := 2 }, status := BootStatus.Ongoing,
      bank1_erased := false } (by decide)).1

/-! ## Update service loop: theorems -/

/-- C8: link-down iterations are skipped without penalty. In `fota_service` and
in `bluemix_service`, an iteration that finds `bt_connection_state` false leaves
the whole thread state unchanged (failure counter, `bluemix_inited`), and its
only call is the sleep: the lock is not taken, no backend operation (poll, init,
publish, teardown) is made and `sys_reboot` is not called; the telemetry loop,
whose guard held before the iteration, goes on without restart. -/
theorem C8_link_down_cycle_skipped (fs : FotaState) (fi : FotaInput)
    (bs : BluemixState) (bi : BluemixInput) :
    (fi.bt_connection_state = false →
      (fota_cycle fs fi).1 = fs ∧
      (fota_cycle fs fi).2 = [Ev.k_sleep] ∧
      lock_count (fota_cycle fs fi).2 = 0 ∧
      (∀ e ∈ (fota_cycle fs fi).2, e.is_backend_op = false ∧ e ≠ Ev.sys_reboot)) ∧
    (bi.bt_connection_state = false →
      (bluemix_cycle bs bi).1 = bs ∧
      (bluemix_cycle bs bi).2 = [Ev.k_sleep] ∧
      lock_count (bluemix_cycle bs bi).2 = 0 ∧
      (∀ e ∈ (bluemix_cycle bs bi).2, e.is_backend_op = false ∧ e ≠ Ev.sys_reboot) ∧
      (bs.bluemix_failures < MAX_SERVER_FAIL →
        bluemix_service bs [bi] = (bs, [Ev.k_sleep]))) := by
  constructor
  · intro h
    simp [fota_cycle, h, lock_count, Ev.is_backend_op]
  · intro h
    simp [bluemix_cycle, h, lock_count, Ev.is_backend_op]
    intro hlt
    simp [bluemix_service, bluemix_cycle, h, hlt]

/-- Witness for C8: a link-down iteration of each loop with failures pending. -/
theorem C8_link_down_cycle_skipped_witness :
    (fota_cycle { hawkbit_failures := 3, rebooted := false } ⟨false, -1⟩).1
      = { hawkbit_failures := 3, rebooted := false } ∧
    (bluemix_cycle ⟨1, 2, ⟨21, 5⟩, ⟨19, 0⟩⟩ ⟨false, -1, none, none, -1, -1⟩).1
      = (⟨1, 2, ⟨21, 5⟩, ⟨19, 0⟩⟩ : BluemixState) :=
  ⟨((C8_link_down_cycle_skipped { hawkbit_failures := 3, rebooted := false } ⟨false, -1⟩
      ⟨1, 2, ⟨21, 5⟩, ⟨19, 0⟩⟩ ⟨false, -1, none, none, -1, -1⟩).1 rfl).1,
   ((C8_link_down_cycle_skipped { hawkbit_failures := 3, rebooted := false } ⟨false, -1⟩
      ⟨1, 2, ⟨21, 5⟩, ⟨19, 0⟩⟩ ⟨false, -1, none, none, -1, -1⟩).2 rfl).1⟩

/-- The log of the sample-and-publish part, entered with the lock held, releases
the lock once and keeps every backend call before that release. -/
theorem bluemix_sample_publish_lock (s : BluemixState) (i : BluemixInput) :
    lock_count (bluemix_sample_publish s i).2 = 0 ∧
    unlock_count (bluemix_sample_publish s i).2 = 1 ∧
    lock_discipline true (bluemix_sample_publish s i).2 = true := by
  simp only [bluemix_sample_publish]
  split_ifs <;> simp [lock_count, unlock_count, lock_discipline]

/-- C10: the transport lock is never held across a sleep. In every iteration of
`fota_service` that does not call `sys_reboot`, and in every iteration of the
body of `bluemix_service`, the number of `tcp_interface_unlock` calls equals the
number of `tcp_interface_lock` calls, both at most 1, and the log satisfies the
lock discipline: the sleep happens with the lock free, every backend operation
happens between a lock and its unlock, and the lock is free when the iteration
ends. -/
theorem C10_lock_not_held_across_sleep (fs : FotaState) (fi : FotaInput)
    (bs : BluemixState) (bi : BluemixInput) :
    (Ev.sys_reboot ∉ (fota_cycle fs fi).2 →
      unlock_count (fota_cycle fs fi).2 = lock_count (fota_cycle fs fi).2 ∧
      lock_count (fota_cycle fs fi).2 ≤ 1 ∧
      lock_discipline false (fota_cycle fs fi).2 = true) ∧
    (unlock_count (bluemix_cycle bs bi).2 = lock_count (bluemix_cycle bs bi).2 ∧
      lock_count (bluemix_cycle bs bi).2 ≤ 1 ∧
      lock_discipline false (bluemix_cycle bs bi).2 = true) := by
  constructor
  · simp only [fota_cycle]
    split_ifs <;> simp [lock_count, unlock_count, lock_discipline]
  · obtain ⟨a1, a2, a3⟩ := bluemix_sample_publish_lock bs bi
    obtain ⟨b1, b2, b3⟩ := bluemix_sample_publish_lock
      { bs with bluemix_failures := 0, bluemix_inited := 1 } bi
    simp only [lock_count, unlock_count] at a1 a2 b1 b2
    simp only [bluemix_cycle]
    split_ifs <;>
      simp [lock_count, unlock_count, lock_discipline, List.count_cons, a1, a2, a3, b1, b2, b3]

/-- A log that keeps the discipline ends with the lock free, so what follows it is
scanned from the free state. -/
theorem lock_discipline_append (a b : List Ev) (held : Bool)
    (h : lock_discipline held a = true) :
    lock_discipline held (a ++ b) = lock_discipline false b := by
  induction a generalizing held with
  | nil =>
    cases held
    · rfl
    · simp [lock_discipline] at h
  | cons e t ih =>
    cases e <;> cases held <;> simp [lock_discipline] at h ⊢ <;> exact ih _ h

/-- Over any number of iterations of `bluemix_service`, up to and including the
restart after the loop, the lock is never held during a sleep and every backend
call is made with the lock held. -/
theorem bluemix_service_lock_discipline (s : BluemixState) (cs : List BluemixInput) :
    lock_discipline false (bluemix_service s cs).2 = true := by
  induction cs generalizing s with
  | nil =>
    simp only [bluemix_service]
    split_ifs <;> simp [lock_discipline]
  | cons i rest ih =>
    simp only [bluemix_service]
    split_ifs
    · have hc : lock_discipline false (bluemix_cycle s i).2 = true := by
        have h1 := bluemix_sample_publish_lock s i
        have h2 := bluemix_sample_publish_lock
          { s with bluemix_failures := 0, bluemix_inited := 1 } i
        simp only [bluemix_cycle]
        split_ifs <;> simp [lock_discipline, h1.2.2, h2.2.2]
      rw [lock_discipline_append _ _ _ hc]
      exact ih _
    · simp [lock_discipline]

/-- Over any number of iterations of `fota_service` that end with the thread still
running, the lock is never held during a sleep and every poll is made with the
lock held. -/
theorem fota_service_lock_discipline (s : FotaState) (cs : List FotaInput)
    (h : (fota_service s cs).1.rebooted = false) :
    lock_discipline false (fota_service s cs).2 = true := by
  induction cs generalizing s with
  | nil => simp [fota_service, lock_discipline]
  | cons i rest ih =>
    simp only [fota_service] at h ⊢
    by_cases hr : (fota_cycle s i).1.rebooted = true
    · rw [if_pos hr] at h
      rw [hr] at h
      exact Bool.noConfusion h
    · rw [if_neg hr] at h ⊢
      have hc : lock_discipline false (fota_cycle s i).2 = true := by
        simp only [fota_cycle] at hr ⊢
        split_ifs at hr ⊢ <;> simp_all [lock_discipline]
      rw [lock_discipline_append _ _ _ hc]
      exact ih _ h

/-- Witness for C10: a failed poll below the threshold, and a failed publish. -/
theorem C10_lock_not_held_across_sleep_witness :
    unlock_count (fota_cycle { hawkbit_failures := 1, rebooted := false } ⟨true, -1⟩).2
      = lock_count (fota_cycle { hawkbit_failures := 1, rebooted := false } ⟨true, -1⟩).2 ∧
    lock_count (fota_cycle { hawkbit_failures := 1, rebooted := false } ⟨true, -1⟩).2 ≤ 1 ∧
    lock_discipline false
      (fota_cycle { hawkbit_failures := 1, rebooted := false } ⟨true, -1⟩).2 = true :=
  (C10_lock_not_held_across_sleep { hawkbit_failures := 1, rebooted := false } ⟨true, -1⟩
    ⟨0, 0, ⟨0, 0⟩, ⟨0, 0⟩⟩ ⟨true, 0, none, none, -1, 0⟩).1 (by decide)

/-! ## Telemetry service loop: theorems -/

/-- The payloads published by the sample-and-publish part: exactly one, built from
the values left by the two sensor reads. -/
theorem bluemix_sample_publish_published (s : BluemixState) (i : BluemixInput) :
    published (bluemix_sample_publish s i).2 =
      [bluemix_payload
        (get_temp_sensor_data i.offchip_temp_sensor_dev s.offchip_temp_value false).1
        (get_temp_sensor_data i.mcu_temp_sensor_dev s.mcu_temp_value true).2
        (get_temp_sensor_data i.offchip_temp_sensor_dev s.offchip_temp_value false).2] := by
  simp only [bluemix_sample_publish]
  split_ifs <;> simp [published]

/-- An iteration that reaches the publish step (link up, and the session either
already marked inited or initialised now) publishes exactly one payload. -/
theorem bluemix_cycle_published (s : BluemixState) (i : BluemixInput)
    (hup : i.bt_connection_state = true)
    (hinit : s.bluemix_inited ≠ 0 ∨ i.init_ret = 0) :
    published (bluemix_cycle s i).2 =
      [bluemix_payload
        (get_temp_sensor_data i.offchip_temp_sensor_dev s.offchip_temp_value false).1
        (get_temp_sensor_data i.mcu_temp_sensor_dev s.mcu_temp_value true).2
        (get_temp_sensor_data i.offchip_temp_sensor_dev s.offchip_temp_value false).2] := by
  have h1 := bluemix_sample_publish_published s i
  have h2 := bluemix_sample_publish_published
    { s with bluemix_failures := 0, bluemix_inited := 1 } i
  have hp : ∀ (l1 l2 : List Ev), published (l1 ++ l2) = published l1 ++ published l2 := by
    intro l1 l2
    simp [published, List.filterMap_append]
  simp only [bluemix_cycle]
  by_cases h0 : s.bluemix_inited = 0
  · have hi : i.init_ret = 0 := by
      rcases hinit with h | h
      · exact absurd h0 h
      · exact h
    simp only [hup, h0, hi, if_true, Bool.true_eq_false, if_false, hp, h2]
    simp [published]
  · simp only [hup, h0, if_false, Bool.true_eq_false, hp, h1]
    simp [published]

/-- The off-chip read returns nonzero when the device is absent or its read failed. -/
theorem get_temp_sensor_data_offchip_fails (dev : Option SensorDev) (v : sensor_value)
    (h : dev = none ∨ ∃ d, dev = some d ∧ (d.fetch_ret ≠ 0 ∨ d.get_ret ≠ 0)) :
    (get_temp_sensor_data dev v false).1 ≠ 0 := by
  rcases h with h | ⟨d, hd, hr⟩
  · subst h
    simp [get_temp_sensor_data, ENODEV]
  · subst hd
    by_cases hf : d.fetch_ret = 0
    · have hg : d.get_ret ≠ 0 := by
        rcases hr with hr | hr
        · exact absurd hf hr
        · exact hr
      simp [get_temp_sensor_data, hf, hg]
    · simp [get_temp_sensor_data, hf]

/-- C7: telemetry payload composition. In every iteration that reaches the
publish step, for every primary reading (p1, p2) left in `mcu_temp_value` by the
primary read: if the secondary sensor is absent or its read failed, the one
payload published carries only the field mcutemp = p1; if the secondary read
succeeded with (s1, s2), it carries mcutemp = p1 and temperature = s1. -/
theorem C7_payload_composition (s : BluemixState) (i : BluemixInput) (p1 p2 : Int)
    (hup : i.bt_connection_state = true)
    (hinit : s.bluemix_inited ≠ 0 ∨ i.init_ret = 0)
    (hprim : (get_temp_sensor_data i.mcu_temp_sensor_dev s.mcu_temp_value true).2
      = { val1 := p1, val2 := p2 }) :
    ((i.offchip_temp_sensor_dev = none ∨
        (∃ d, i.offchip_temp_sensor_dev = some d ∧ (d.fetch_ret ≠ 0 ∨ d.get_ret ≠ 0))) →
      published (bluemix_cycle s i).2 = [Payload.mcu_only p1] ∧
      (published (bluemix_cycle s i).2).map Payload.fields = [[("mcutemp", p1)]]) ∧
    (∀ s1 s2 : Int,
      i.offchip_temp_sensor_dev
        = some { fetch_ret := 0, get_ret := 0, get_val := some { val1 := s1, val2 := s2 } } →
      published (bluemix_cycle s i).2 = [Payload.mcu_and_offchip p1 s1] ∧
      (published (bluemix_cycle s i).2).map Payload.fields
        = [[("mcutemp", p1), ("temperature", s1)]]) := by
  rw [bluemix_cycle_published s i hup hinit, hprim]
  constructor
  · intro h
    have hne := get_temp_sensor_data_offchip_fails i.offchip_temp_sensor_dev
      s.offchip_temp_value h
    simp [bluemix_payload, hne, Payload.fields]
  · intro s1 s2 h
    simp [h, bluemix_payload, get_temp_sensor_data, Payload.fields]

/-- Witness for C7: primary (21,5) with the secondary absent publishes only
mcutemp=21; primary (21,5) with secondary (19,0) publishes mcutemp=21 and
temperature=19. -/
theorem C7_payload_composition_witness :
    (published (bluemix_cycle ⟨0, 0, ⟨0, 0⟩, ⟨0, 0⟩⟩
        ⟨true, 0, some ⟨0, 0, some ⟨21, 5⟩⟩, none, 0, 0⟩).2).map Payload.fields
      = [[("mcutemp", 21)]] ∧
    (published (bluemix_cycle ⟨0, 0, ⟨0, 0⟩, ⟨0, 0⟩⟩
        ⟨true, 0, some ⟨0, 0, some ⟨21, 5⟩⟩, some ⟨0, 0, some ⟨19, 0⟩⟩, 0, 0⟩).2).map
        Payload.fields
      = [[("mcutemp", 21), ("temperature", 19)]] :=
  ⟨((C7_payload_composition ⟨0, 0, ⟨0, 0⟩, ⟨0, 0⟩⟩
        ⟨true, 0, some ⟨0, 0, some ⟨21, 5⟩⟩, none, 0, 0⟩ 21 5 rfl (Or.inr rfl) rfl).1
      (Or.inl rfl)).2,
   ((C7_payload_composition ⟨0, 0, ⟨0, 0⟩, ⟨0, 0⟩⟩
        ⟨true, 0, some ⟨0, 0, some ⟨21, 5⟩⟩, some ⟨0, 0, some ⟨19, 0⟩⟩, 0, 0⟩ 21 5 rfl
        (Or.inr rfl) rfl).2 19 0 rfl).2⟩

/-- After a failed publish the flag `bluemix_inited` is still 1, whatever
`bluemix_fini` returned: the source calls `bluemix_fini` and never resets the flag. -/
theorem bluemix_cycle_publish_failure_keeps_flag (s : BluemixState) (i : BluemixInput)
    (hup : i.bt_connection_state = true)
    (hinit : s.bluemix_inited = 1 ∨ (s.bluemix_inited = 0 ∧ i.init_ret = 0))
    (hpub : i.pub_ret ≠ 0) :
    (bluemix_cycle s i).1.bluemix_inited = 1 ∧
    (∃ p, Ev.bluemix_fini i.fini_ret ∈ (bluemix_cycle s i).2 ∧
      Ev.bluemix_pub_status_json p i.pub_ret ∈ (bluemix_cycle s i).2) := by
  rcases hinit with h | ⟨h, hi⟩
  · simp [bluemix_cycle, bluemix_sample_publish, hup, h, hpub]
  · simp [bluemix_cycle, bluemix_sample_publish, hup, h, hi, hpub]

/-- An iteration entered with `bluemix_inited` nonzero never calls `bluemix_init`. -/
theorem bluemix_cycle_inited_skips_init (s : BluemixState) (i : BluemixInput)
    (h : s.bluemix_inited ≠ 0) :
    calls_bluemix_init (bluemix_cycle s i).2 = false := by
  simp only [bluemix_cycle, bluemix_sample_publish]
  split_ifs <;> simp_all [calls_bluemix_init]

/-- C2 evaluated on the code: from thread start, a first link-up iteration whose
init succeeds and whose publish fails (return -1) calls `bluemix_fini`, counts
one failure (below the threshold) and leaves `bluemix_inited` = 1; the next
link-up iteration then publishes without calling `bluemix_init`. -/
theorem C2_publish_failure_does_not_force_reinit :
    (bluemix_cycle (bluemix_start ⟨0, 0⟩ ⟨0, 0⟩) ⟨true, 0, none, none, -1, 0⟩).2
      = [Ev.k_sleep, Ev.tcp_interface_lock, Ev.bluemix_init 0,
         Ev.bluemix_pub_status_json (Payload.mcu_only 23) (-1), Ev.bluemix_fini 0,
         Ev.tcp_interface_unlock, Ev.stack_analyze] ∧
    (bluemix_cycle (bluemix_start ⟨0, 0⟩ ⟨0, 0⟩) ⟨true, 0, none, none, -1, 0⟩).1
      = { bluemix_inited := 1, bluemix_failures := 1, mcu_temp_value := ⟨23, 0⟩,
          offchip_temp_value := ⟨0, 0⟩ } ∧
    (bluemix_cycle
        (bluemix_cycle (bluemix_start ⟨0, 0⟩ ⟨0, 0⟩) ⟨true, 0, none, none, -1, 0⟩).1
        ⟨true, 0, none, none, 0, 0⟩).2
      = [Ev.k_sleep, Ev.tcp_interface_lock,
         Ev.bluemix_pub_status_json (Payload.mcu_only 23) 0,
         Ev.tcp_interface_unlock, Ev.stack_analyze] ∧
    calls_bluemix_init (bluemix_cycle
        (bluemix_cycle (bluemix_start ⟨0, 0⟩ ⟨0, 0⟩) ⟨true, 0, none, none, -1, 0⟩).1
        ⟨true, 0, none, none, 0, 0⟩).2 = false := by
  decide

/-- What `get_temp_sensor_data` does for the primary sensor: with no device it
stores the default (23, 0) and returns 0; when `sensor_sample_fetch` fails it
returns the error and leaves the caller's value as it was. -/
theorem get_temp_sensor_data_primary (v : sensor_value) (d : SensorDev)
    (hf : d.fetch_ret ≠ 0) :
    get_temp_sensor_data none v true = (0, { val1 := 23, val2 := 0 }) ∧
    get_temp_sensor_data (some d) v true = (d.fetch_ret, v) := by
  simp [get_temp_sensor_data, hf]

/-- C6 evaluated on the code: two link-up iterations from thread start with the
primary sensor present. The first read succeeds with (21,5); in the second,
`sensor_sample_fetch` returns -5. The second payload carries mcutemp = 21, the
value of the previous iteration, not the default 23; no failure is counted. -/
theorem C6_primary_read_error_publishes_stale_value :
    published (bluemix_service (bluemix_start ⟨0, 0⟩ ⟨0, 0⟩)
        [⟨true, 0, some ⟨0, 0, some ⟨21, 5⟩⟩, none, 0, 0⟩,
         ⟨true, 0, some ⟨-5, 0, none⟩, none, 0, 0⟩]).2
      = [Payload.mcu_only 21, Payload.mcu_only 21] ∧
    (bluemix_service (bluemix_start ⟨0, 0⟩ ⟨0, 0⟩)
        [⟨true, 0, some ⟨0, 0, some ⟨21, 5⟩⟩, none, 0, 0⟩,
         ⟨true, 0, some ⟨-5, 0, none⟩, none, 0, 0⟩]).1.mcu_temp_value
      = { val1 := 21, val2 := 5 } ∧
    (bluemix_service (bluemix_start ⟨0, 0⟩ ⟨0, 0⟩)
        [⟨true, 0, some ⟨0, 0, some ⟨21, 5⟩⟩, none, 0, 0⟩,
         ⟨true, 0, some ⟨-5, 0, none⟩, none, 0, 0⟩]).1.bluemix_failures = 0 ∧
    Payload.mcu_only 21 ≠ Payload.mcu_only 23 := by
  decide

end FotaHawkbit
